import Mathlib

/-!
Verification of the ContextLingo configuration core (Lingoc repository):
the YAML-like dumper `generateConfigYaml`, the parser `parseConfigYaml`
(with `parseLines` and `parseValue`), and the deep-merge reconciler
`deepMergeConfig` together with the per-section import logic of
`handleConfigImport`.

The embedding works on `List Char` as the text representation (JavaScript
strings are modelled as their character lists).  JavaScript numbers are
modelled as integers: every number appearing in the configuration values
under study is integral, the dumper prints them with `toString` and the
parser reads them back with `Number`, both of which agree with decimal
integer notation on integers.  Property access `x[k]` on a non-object
value is modelled as `undefined` (`none`), which is accurate for all
configuration keys in play (none of them is a built-in property of a
JavaScript primitive).  Recursive functions that the source writes with
unstructured loops or recursion on derived lists take an explicit fuel
argument; callers supply fuel larger than any possible recursion depth,
so the fuel branch is never taken on the inputs of interest.
-/

namespace Lingoc

/-- Double-quote character (written via its code point to keep the
text free of quote-heavy literals). -/
def dq : Char := Char.ofNat 34

/-- Single-quote character. -/
def sq : Char := Char.ofNat 39

/-- Backslash character. -/
def bslash : Char := Char.ofNat 92

/-- Shorthand: the character list of a string literal. -/
def str (s : String) : List Char := s.data

/-- JavaScript whitespace test, restricted to the whitespace characters
that can actually occur in the texts under study (space, tab, carriage
return, newline). -/
def isWS (c : Char) : Bool :=
  c = ' ' || c = '\t' || c = '\r' || c = '\n'

/-- `String.prototype.trimStart`. -/
def trimStartJS (l : List Char) : List Char := l.dropWhile isWS

/-- `String.prototype.trim` (drop whitespace at both ends). -/
def trimJS (l : List Char) : List Char :=
  ((l.dropWhile isWS).reverse.dropWhile isWS).reverse

/-- `String.prototype.split(sep)` for a single-character separator. -/
def splitChAux (sep : Char) : List Char → List Char → List (List Char)
  | [], acc => [acc.reverse]
  | c :: rest, acc =>
    if c == sep then acc.reverse :: splitChAux sep rest []
    else splitChAux sep rest (c :: acc)

/-- Split a character list on a separator character, JavaScript
`split` semantics (`"".split` gives one empty piece). -/
def splitCh (sep : Char) (l : List Char) : List (List Char) :=
  splitChAux sep l []

/-- `String.prototype.includes(c)` for one character. -/
def containsCh (l : List Char) (c : Char) : Bool := l.any (fun x => x == c)

/-- `String.prototype.startsWith(c)` for one character. -/
def startsWithCh (c : Char) : List Char → Bool
  | [] => false
  | x :: _ => x == c

/-- `String.prototype.endsWith(c)` for one character. -/
def endsWithCh (c : Char) (l : List Char) : Bool :=
  match l.getLast? with
  | none => false
  | some x => x == c

/-- `String.prototype.indexOf(c)` for one character, as an optional index. -/
def firstIdx (c : Char) : List Char → Nat → Option Nat
  | [], _ => none
  | x :: rest, i => if x = c then some i else firstIdx c rest (i + 1)

/-- `valPart.includes(': ')`: does the list contain a colon immediately
followed by a space? -/
def hasColonSpace : List Char → Bool
  | [] => false
  | [_] => false
  | x :: y :: rest =>
    if x = ':' && y = ' ' then true else hasColonSpace (y :: rest)

/-- `line.search(/\S/)`: index of the first non-whitespace character,
`-1` when there is none.  Result is an `Int` exactly like in JavaScript. -/
def jsSearchAux : List Char → Int → Int
  | [], _ => -1
  | c :: rest, i => if isWS c then jsSearchAux rest (i + 1) else i

/-- `line.search(/\S/)` from position 0. -/
def jsSearch (l : List Char) : Int := jsSearchAux l 0

/-- `.replace(/^q|q$/g, '')`: strip one leading quote `q` if present, and
then one trailing quote `q` if present. -/
def stripEdge (q : Char) (l : List Char) : List Char :=
  let l1 := match l with
    | [] => []
    | c :: rest => if c = q then rest else c :: rest
  if endsWithCh q l1 then l1.dropLast else l1

/-- Key cleanup of `parseLines`:
`.trim().replace(/^"|"$/g, '').replace(/^'|'$/g, '')`. -/
def stripKeyQuotes (l : List Char) : List Char :=
  stripEdge sq (stripEdge dq (trimJS l))

/-- `value.replace(/"/g, '\\"')`: escape every double quote. -/
def escQuotes : List Char → List Char
  | [] => []
  | c :: rest =>
    if c = dq then bslash :: dq :: escQuotes rest else c :: escQuotes rest

/-- Decimal digits of a natural number (`Nat.toDigits` base 10). -/
def natToChars (n : Nat) : List Char := Nat.toDigits 10 n

/-- `Number.prototype.toString` on an integer. -/
def intToChars : Int → List Char
  | Int.ofNat n => natToChars n
  | Int.negSucc m => '-' :: natToChars (m + 1)

/-- All characters are decimal digits. -/
def allDigits : List Char → Bool
  | [] => true
  | c :: rest => c.isDigit && allDigits rest

/-- `!isNaN(Number(val))` restricted to the integer fragment of
JavaScript number syntax: the empty string (JavaScript converts it to 0)
or an optional minus sign followed by at least one decimal digit.  This
agrees with JavaScript on every token the configuration pipeline
produces (integral numerals, bare words, bracketed and quoted tokens). -/
def jsIsNumeric : List Char → Bool
  | [] => true
  | '-' :: rest => !rest.isEmpty && allDigits rest
  | l => !l.isEmpty && allDigits l

/-- Digits to a natural number. -/
def digitsToNat : List Char → Nat → Nat
  | [], acc => acc
  | c :: rest, acc => digitsToNat rest (acc * 10 + (c.toNat - 48))

/-- `Number(val)` on the integer fragment. -/
def jsToInt : List Char → Int
  | '-' :: rest => - Int.ofNat (digitsToNat rest 0)
  | l => Int.ofNat (digitsToNat l 0)

/-! ## The value data model

`Value` is the untyped JavaScript value universe of the configuration
core: `null`, booleans, numbers, strings, arrays, objects (ordered field
lists, as JavaScript objects preserve insertion order).  `VList` and
`FList` are specialised list types so that all recursive functions are
structurally recursive and reduce inside the kernel. -/

mutual

inductive Value where
  | vNull
  | vBool (b : Bool)
  | vNum (n : Int)
  | vStr (s : List Char)
  | vArr (elems : VList)
  | vObj (fields : FList)

inductive VList where
  | nil
  | cons (v : Value) (t : VList)

inductive FList where
  | nil
  | cons (k : List Char) (v : Value) (t : FList)

end

open Value

/-- Append for `VList`. -/
def VList.append : VList → VList → VList
  | VList.nil, ys => ys
  | VList.cons x xs, ys => VList.cons x (VList.append xs ys)

/-- Singleton `VList`. -/
def VList.single (v : Value) : VList := VList.cons v VList.nil

/-- `arrayItems.push(v)`. -/
def VList.snoc (xs : VList) (v : Value) : VList :=
  VList.append xs (VList.single v)

/-- Key list of an object's fields, in order. -/
def FList.keys : FList → List (List Char)
  | FList.nil => []
  | FList.cons k _ t => k :: FList.keys t

/-- First-match field lookup (`obj[key]`, `undefined` as `none`). -/
def lookupF : FList → List Char → Option Value
  | FList.nil, _ => none
  | FList.cons k v t, q => if k = q then some v else lookupF t q

/-- `result[key] = v` on an ordered field list: overwrite in place if the
key exists (JavaScript keeps the original position), append otherwise. -/
def setKey : FList → List Char → Value → FList
  | FList.nil, q, v => FList.cons q v FList.nil
  | FList.cons k w t, q, v =>
    if k = q then FList.cons k v t else FList.cons k w (setKey t q v)

/-- Property access `x[k]` of the merge code: field lookup on objects,
`undefined` on every non-object. -/
def impGet : Value → List Char → Option Value
  | vObj fs, k => lookupF fs k
  | _, _ => none

/-- `typeof v === 'object' && v !== null && !Array.isArray(v)`. -/
def isObjV : Value → Bool
  | vObj _ => true
  | _ => false

/-- Follow a path of object keys through a value; `none` as soon as an
intermediate value is not an object or lacks the key. -/
def objPath : Value → List (List Char) → Option Value
  | v, [] => some v
  | vObj fs, k :: ks =>
    match lookupF fs k with
    | some v => objPath v ks
    | none => none
  | _, _ :: _ => none

/-! ## The deep-merge reconciler (`deepMergeConfig` in `App.tsx`) -/

mutual

/-- Body of `deepMergeConfig` after the `undefined`/`null` entry check:
the imported value here is known non-null.
Array default: wholesale replacement by a non-empty imported array,
otherwise the default is kept.  Object default: rebuild the object over
the default's own keys.  Any other default (scalar or `null`): the
imported value wins. -/
def mergeNN : Value → Value → Value
  | vArr xs, w =>
    match w with
    | vArr (VList.cons a t) => vArr (VList.cons a t)
    | _ => vArr xs
  | vObj fs, w => vObj (mergeFields fs w)
  | _, w => w

/-- The `Object.keys(defaultConfig).forEach` loop of `deepMergeConfig`:
for a default field that is a non-array object, recurse (with the full
entry checks); otherwise take the imported field when it is defined. -/
def mergeFields : FList → Value → FList
  | FList.nil, _ => FList.nil
  | FList.cons k v t, w =>
    let v2 :=
      if isObjV v then
        match impGet w k with
        | none => v
        | some Value.vNull => v
        | some u => mergeNN v u
      else
        match impGet w k with
        | none => v
        | some u => u
    FList.cons k v2 (mergeFields t w)

end

/-- `deepMergeConfig(defaultConfig, importedConfig)` from `App.tsx`.
`none` models an `undefined` import. -/
def deepMergeConfig (defv : Value) (imp : Option Value) : Value :=
  match imp with
  | none => defv
  | some Value.vNull => defv
  | some w => mergeNN defv w

/-! ## The dumper (`dumpValue`, `dumpObject`, `generateConfigYaml`) -/

/-- One entry of the static field-metadata tables.  The source also
declares a `type` member, but neither the dumper nor the parser ever
reads it, so it is omitted from the embedding. -/
structure FieldMeta where
  key : List Char
  comment : List Char
  options : Option (List Char)

/-- Metadata entry without an allowed-values hint. -/
def fm (k c : String) : FieldMeta := ⟨str k, str c, none⟩

/-- Metadata entry with an allowed-values hint. -/
def fmo (k c o : String) : FieldMeta := ⟨str k, str c, some (str o)⟩

/-- `metadata.find(m => m.key === key)`. -/
def findMeta : List FieldMeta → List Char → Option FieldMeta
  | [], _ => none
  | m :: rest, k => if m.key = k then some m else findMeta rest k

def generalFields : List FieldMeta :=
  [ fmo "enabled" "总开关：默认开启翻译" "true | false"
  , fmo "translateWholePage" "扫描范围：是否扫描整个页面（包括侧边栏等）" "true | false"
  , fmo "bilingualMode" "双语对照：在段落末尾追加完整中文译文" "true | false"
  , fmo "aggressiveMode" "激进匹配：启用词典API进行模糊匹配（消耗较大）" "true | false"
  , fmo "matchInflections" "词态匹配：是否自动识别单词变形" "true | false"
  , fmo "ttsSpeed" "朗读速度：TTS 播放倍速" "0.25 - 3.0"
  , fm "blacklist" "黑名单域名列表"
  , fm "whitelist" "白名单域名列表" ]

def styleFields : List FieldMeta :=
  [ fm "color" "文字颜色 (Hex)"
  , fm "backgroundColor" "背景颜色 (Hex)"
  , fmo "isBold" "是否加粗" "true | false"
  , fmo "isItalic" "是否斜体" "true | false"
  , fmo "underlineStyle" "下划线样式" "none | solid | dashed | dotted | double | wavy"
  , fm "underlineColor" "下划线颜色"
  , fm "underlineOffset" "下划线偏移量"
  , fmo "fontSize" "字体大小" "e.g. 1em, 0.8em"
  , fm "opacity" "透明度"
  , fmo "layoutMode" "布局模式" "horizontal (水平) | vertical (垂直)"
  , fmo "densityMode" "密度控制模式" "count (按个数) | percent (按百分比)"
  , fm "densityValue" "密度阈值" ]

def scenarioFields : List FieldMeta :=
  [ fm "id" "场景 ID (不可重复)"
  , fm "name" "场景名称"
  , fmo "isActive" "是否当前激活" "true | false"
  , fmo "isCustom" "是否为自定义场景" "true | false" ]

def interactionFields : List FieldMeta :=
  [ fmo "bubblePosition" "气泡出现位置" "top | bottom | left | right"
  , fmo "showPhonetic" "气泡内显示音标" "true | false"
  , fmo "showOriginalText" "气泡内显示原文" "true | false"
  , fmo "showDictExample" "气泡内显示例句" "true | false"
  , fmo "showDictTranslation" "气泡内显示释义" "true | false"
  , fmo "autoPronounce" "自动朗读开关" "true | false"
  , fmo "autoPronounceAccent" "朗读口音" "US | UK"
  , fm "autoPronounceCount" "自动朗读次数"
  , fm "dismissDelay" "气泡消失延迟 (ms)"
  , fmo "allowMultipleBubbles" "允许多个气泡共存" "true | false"
  , fm "onlineDictUrl" "在线词典链接模板 ({word} 为占位符)" ]

def pageWidgetFields : List FieldMeta :=
  [ fmo "enabled" "启用悬浮球" "true | false"
  , fmo "showPhonetic" "列表中显示音标" "true | false"
  , fmo "showMeaning" "列表中显示释义" "true | false"
  , fmo "showMultiExamples" "显示多个例句" "true | false"
  , fmo "showExampleTranslation" "显示例句翻译" "true | false"
  , fmo "showContextTranslation" "显示原句翻译" "true | false"
  , fmo "showPartOfSpeech" "显示词性" "true | false"
  , fmo "showTags" "显示标签" "true | false"
  , fmo "showImportance" "显示星级" "true | false"
  , fmo "showCocaRank" "显示COCA排名" "true | false" ]

def engineFields : List FieldMeta :=
  [ fm "id" "引擎 ID"
  , fm "name" "引擎名称"
  , fmo "type" "引擎类型" "standard | ai"
  , fmo "isEnabled" "是否启用" "true | false"
  , fm "apiKey" "API Key (敏感信息)"
  , fmo "isWebSimulation" "是否使用网页模拟模式" "true | false" ]

def ankiFields : List FieldMeta :=
  [ fmo "enabled" "启用 Anki 集成" "true | false"
  , fm "url" "AnkiConnect 地址"
  , fm "deckNameWant" "想学习单词的牌组名称"
  , fm "deckNameLearning" "正在学单词的牌组名称"
  , fm "modelName" "使用的笔记类型名称"
  , fm "syncInterval" "自动掌握天数阈值"
  , fmo "autoSync" "是否开启自动同步" "true | false" ]

/-- `'  '.repeat(level)`. -/
def indentStr (level : Nat) : List Char := List.replicate (2 * level) ' '

/-- `typeof v !== 'object'` (true for booleans, numbers, strings;
false for `null`, arrays, objects). -/
def isPrimT : Value → Bool
  | vBool _ => true
  | vNum _ => true
  | vStr _ => true
  | _ => false

/-- `value.every(v => typeof v !== 'object')`. -/
def allPrim : VList → Bool
  | VList.nil => true
  | VList.cons v t => isPrimT v && allPrim t

/-- One element of a single-line primitive array:
`typeof v === 'string' ? `"${v}"` : v` (no escaping inside the quotes;
numbers and booleans are coerced by the template string). -/
def dumpPrimElem : Value → List Char
  | vStr s => dq :: s ++ [dq]
  | vNum n => intToChars n
  | vBool b => if b then str "true" else str "false"
  | vNull => str "null"
  | _ => []

/-- `.join(', ')` over the encoded elements of a primitive array. -/
def dumpPrimList : VList → List Char
  | VList.nil => []
  | VList.cons v VList.nil => dumpPrimElem v
  | VList.cons v t => dumpPrimElem v ++ ',' :: ' ' :: dumpPrimList t

mutual

/-- `dumpValue(value, level)` from the YAML helper. -/
def dumpValue : Value → Nat → List Char
  | vNull, _ => str "null"
  | vBool b, _ => if b then str "true" else str "false"
  | vNum n, _ => intToChars n
  | vStr s, _ =>
    if containsCh s '\n' || containsCh s ':' || containsCh s '#' then
      dq :: escQuotes s ++ [dq]
    else if s.isEmpty then [dq, dq] else s
  | vArr VList.nil, _ => str "[]"
  | vArr (VList.cons a t), level =>
    if allPrim (VList.cons a t) then
      '[' :: dumpPrimList (VList.cons a t) ++ [']']
    else
      '\n' :: dumpItems (VList.cons a t) level
  | vObj fs, level => '\n' :: dumpFields fs (level + 1) [] false true

/-- The `value.forEach(item => ...)` loop of the object-array branch
of `dumpValue`: each item on a dashed line,
`indent(level) + '- ' + dumpObject(item, level + 1, [], true).trimStart()`.
`Object.keys` of a non-object item is empty. -/
def dumpItems : VList → Nat → List Char
  | VList.nil, _ => []
  | VList.cons v t, level =>
    let body :=
      match v with
      | vObj fs => trimStartJS (dumpFields fs (level + 1) [] true true)
      | _ => []
    indentStr level ++ '-' :: ' ' :: body ++ dumpItems t level

/-- `dumpObject(obj, level, metadata, isListItem)`: emit a comment line
for every key with metadata, then the key/value line; the first key of a
list item gets no indentation (it sits right after the dash). -/
def dumpFields : FList → Nat → List FieldMeta → Bool → Bool → List Char
  | FList.nil, _, _, _, _ => []
  | FList.cons k v t, level, md, isListItem, isFirst =>
    let commentPart :=
      match findMeta md k with
      | none => []
      | some m =>
        '\n' :: indentStr level ++ '#' :: ' ' :: m.comment
          ++ (match m.options with
              | none => []
              | some o => str " (可选值: " ++ o ++ [')'])
          ++ ['\n']
    let pfx := if isListItem && isFirst then [] else indentStr level
    commentPart ++ pfx ++ k ++ ':' :: ' ' :: dumpValue v level
      ++ '\n' :: dumpFields t level md isListItem false

end

/-- The seven-section configuration bundle handed to
`generateConfigYaml` (the `currentConfigs` object of `App.tsx`):
flat-map sections as field lists, record-list sections as value lists. -/
structure ConfigBundle where
  general : FList
  styles : FList
  scenarios : VList
  interaction : FList
  pageWidget : FList
  engines : VList
  anki : FList

/-- The bundle as a single `Value` (the shape `parseConfigYaml` returns
and `deepMergeConfig` consumes). -/
def ConfigBundle.toValue (c : ConfigBundle) : Value :=
  vObj (FList.cons (str "general") (vObj c.general)
    (FList.cons (str "styles") (vObj c.styles)
      (FList.cons (str "scenarios") (vArr c.scenarios)
        (FList.cons (str "interaction") (vObj c.interaction)
          (FList.cons (str "pageWidget") (vObj c.pageWidget)
            (FList.cons (str "engines") (vArr c.engines)
              (FList.cons (str "anki") (vObj c.anki) FList.nil)))))))

/-- A section banner:
`\n# ===...===\n<title>\n# ===...===\n` with fifty equals signs. -/
def banner (title : String) : List Char :=
  '\n' :: '#' :: ' ' :: List.replicate 50 '='
    ++ '\n' :: str title
    ++ '\n' :: '#' :: ' ' :: List.replicate 50 '='
    ++ ['\n']

/-- The `fullConfig.scenarios.forEach` / `fullConfig.engines.forEach`
loops: `  - ${dumpObject(s, 2, md, true).trimStart()}`. -/
def sectionRecords : VList → List FieldMeta → List Char
  | VList.nil, _ => []
  | VList.cons v t, md =>
    let body :=
      match v with
      | vObj fs => trimStartJS (dumpFields fs 2 md true true)
      | _ => []
    str "  - " ++ body ++ sectionRecords t md

/-- The `Object.keys(fullConfig.styles).forEach` loop:
`  # 类别: ${cat}\n  "${cat}":\n${dumpObject(styles[cat], 2, styleFields)}`. -/
def sectionStyles : FList → List Char
  | FList.nil => []
  | FList.cons k v t =>
    let body :=
      match v with
      | vObj fs => dumpFields fs 2 styleFields false true
      | _ => []
    str "  # 类别: " ++ k ++ '\n' :: ' ' :: ' ' :: dq :: k
      ++ dq :: ':' :: '\n' :: body ++ sectionStyles t

/-- Everything `generateConfigYaml` emits after the two header comment
lines; depends only on the configuration bundle. -/
def generateConfigYamlBody (cfg : ConfigBundle) : List Char :=
  banner "# 1. 常规选项 (General Settings)"
    ++ str "general:\n" ++ dumpFields cfg.general 1 generalFields false true
    ++ banner "# 2. 视觉样式 (Visual Styles)"
    ++ str "styles:\n" ++ sectionStyles cfg.styles
    ++ banner "# 3. 场景配置 (Scenarios)"
    ++ str "scenarios:\n" ++ sectionRecords cfg.scenarios scenarioFields
    ++ banner "# 4. 交互配置 (Interaction)"
    ++ str "interaction:\n" ++ dumpFields cfg.interaction 1 interactionFields false true
    ++ banner "# 5. 悬浮球弹窗 (Page Widget)"
    ++ str "pageWidget:\n" ++ dumpFields cfg.pageWidget 1 pageWidgetFields false true
    ++ banner "# 6. 翻译引擎 (Translation Engines)"
    ++ str "engines:\n" ++ sectionRecords cfg.engines engineFields
    ++ banner "# 7. Anki 集成 (Anki Integration)"
    ++ str "anki:\n" ++ dumpFields cfg.anki 1 ankiFields false true

/-- `generateConfigYaml(fullConfig)`.  The argument `now` models the
`new Date().toLocaleString()` read of the wall clock that the source
interpolates into the second header line. -/
def generateConfigYaml (cfg : ConfigBundle) (now : List Char) : List Char :=
  str "# ContextLingo 配置文件\n# 导出时间: " ++ now
    ++ '\n' :: generateConfigYamlBody cfg

/-! ## The parser (`parseConfigYaml`, `parseLines`, `parseValue`) -/

/-- The per-line scanner of `parseConfigYaml`: walk the line keeping a
quote state (a quote toggles it; a closing quote preceded by a backslash
does not close), and truncate at the first `#` found outside quotes.
State: characters still to scan, whether inside a quote, the opening
quote character, and the previous character. -/
def stripCommentGo : List Char → Bool → Char → Option Char → List Char
  | [], _, _, _ => []
  | c :: rest, inQ, qc, prev =>
    let st :=
      if c == dq || c == sq then
        if !inQ then (true, c)
        else if c == qc then
          if prev != some bslash then (false, qc) else (inQ, qc)
        else (inQ, qc)
      else (inQ, qc)
    if c == '#' && !st.1 then []
    else c :: stripCommentGo rest st.1 st.2 (some c)

/-- Quote-aware comment stripping of one raw line. -/
def stripComment (l : List Char) : List Char :=
  stripCommentGo l false dq none

mutual

/-- `parseValue(val)` of the YAML helper, with fuel for the recursion
into inline-array elements. -/
def parseValue : Nat → List Char → Value
  | 0, v => vStr v
  | fuel + 1, v =>
    if v == str "true" then vBool true
    else if v == str "false" then vBool false
    else if v == str "null" then vNull
    else if jsIsNumeric v && !containsCh v dq && !containsCh v sq && !v.isEmpty then
      vNum (jsToInt v)
    else if startsWithCh '[' v && endsWithCh ']' v then
      let inner := (v.drop 1).dropLast
      if (trimJS inner).isEmpty then vArr VList.nil
      else parseValueList fuel (splitCh ',' inner)
    else if (startsWithCh dq v && endsWithCh dq v)
        || (startsWithCh sq v && endsWithCh sq v) then
      vStr ((v.drop 1).dropLast)
    else vStr v

/-- `inner.split(',').map(s => parseValue(s.trim()))`. -/
def parseValueList : Nat → List (List Char) → Value
  | 0, _ => vArr VList.nil
  | _ + 1, [] => vArr VList.nil
  | fuel + 1, s :: rest =>
    match parseValueList fuel rest with
    | vArr t => vArr (VList.cons (parseValue fuel (trimJS s)) t)
    | _ => vArr VList.nil

end

/-- `parseLines(lines, currentIndent)` of the YAML helper, as a fueled
loop.  `isArr`, `items` and `fields` carry the loop state (`isArray`,
`arrayItems`, `result`); the `consumed` component of the source is never
read by any caller and is dropped.  A line less indented than
`currentIndent` ends the block; a more indented line is skipped; a
dashed item with an inline `key: value` pair is re-indented to the
dash's column and parsed together with all following deeper lines; a
key with no inline value opens a nested block parsed at the indentation
of its first line, or becomes an empty object when there is none. -/
def parseLinesF : Nat → List (List Char) → Int → Bool → VList → FList → Value
  | 0, _, _, isArr, items, fields =>
    if isArr then vArr items else vObj fields
  | _ + 1, [], _, isArr, items, fields =>
    if isArr then vArr items else vObj fields
  | fuel + 1, l :: rest, cur, isArr, items, fields =>
    let ind := jsSearch l
    if ind < cur then
      if isArr then vArr items else vObj fields
    else if ind > cur then
      parseLinesF fuel rest cur isArr items fields
    else
      let content := trimJS l
      if startsWithCh '-' content then
        let valPart := trimJS (content.drop 1)
        if !valPart.isEmpty then
          if hasColonSpace valPart then
            let clean := List.replicate ind.toNat ' ' ++ valPart
            let deeper := rest.takeWhile (fun l2 => jsSearch l2 > ind)
            let rest2 := rest.dropWhile (fun l2 => jsSearch l2 > ind)
            let item := parseLinesF fuel (clean :: deeper) ind false VList.nil FList.nil
            parseLinesF fuel rest2 cur true (items.snoc item) fields
          else
            parseLinesF fuel rest cur true (items.snoc (parseValue fuel valPart)) fields
        else
          parseLinesF fuel rest cur true items fields
      else
        match firstIdx ':' content 0 with
        | some ci =>
          let key := stripKeyQuotes (content.take ci)
          let valStr := trimJS (content.drop (ci + 1))
          if !valStr.isEmpty then
            parseLinesF fuel rest cur isArr items (setKey fields key (parseValue fuel valStr))
          else
            let deeper := rest.takeWhile (fun l2 => jsSearch l2 > ind)
            let rest2 := rest.dropWhile (fun l2 => jsSearch l2 > ind)
            match deeper with
            | [] =>
              parseLinesF fuel rest2 cur isArr items (setKey fields key (vObj FList.nil))
            | d :: ds =>
              let child := parseLinesF fuel (d :: ds) (jsSearch d) false VList.nil FList.nil
              parseLinesF fuel rest2 cur isArr items (setKey fields key child)
        | none => parseLinesF fuel rest cur isArr items fields

/-- `parseConfigYaml(yaml)`: split into lines, strip comments with the
quote-aware scanner, drop blank lines, then run `parseLines` at
indentation 0.  The fuel is far larger than the number of recursive
calls any document of this length can cause. -/
def parseConfigYaml (cs : List Char) : Value :=
  let lines := ((splitCh '\n' cs).map stripComment).filter
    (fun l => !(trimJS l).isEmpty)
  parseLinesF 1000000 lines 0 false VList.nil FList.nil

/-- The scalar codec's encoding direction: how `dumpValue` renders a
string value (the level argument is irrelevant for strings). -/
def encodeScalar (s : List Char) : List Char := dumpValue (vStr s) 0

/-- The scalar codec's decoding direction: `parseValue` with ample fuel. -/
def decodeScalar (cs : List Char) : Value := parseValue (cs.length + 1) cs

/-! ## The import-side reconciliation of `handleConfigImport` -/

/-- JavaScript truthiness (for the `if (newConfig.styles)` guard). -/
def jsTruthy : Value → Bool
  | vNull => false
  | vBool b => b
  | vNum n => decide (n ≠ 0)
  | vStr s => !s.isEmpty
  | _ => true

/-- Fields of an object value, `FList.nil` otherwise. -/
def objFieldsOf : Value → FList
  | vObj fs => fs
  | _ => FList.nil

/-- The `Object.keys(newConfig.styles).forEach` loop of
`handleConfigImport`: for every imported category, deep-merge the
imported style object against `DEFAULT_STYLE` and store it under the
category key. -/
def importStylesGo (dStyle : FList) (imp : FList) : FList → FList → FList
  | FList.nil, acc => acc
  | FList.cons k _ t, acc =>
    importStylesGo dStyle imp t
      (setKey acc k (deepMergeConfig (vObj dStyle) (lookupF imp k)))

/-- `nextStyles`: start from a copy of `DEFAULT_STYLES`; when the
imported document has a truthy `styles` entry, merge each of its
categories against `DEFAULT_STYLE`. -/
def importStyles (dStyles dStyle : FList) (impStyles : Option Value) : FList :=
  match impStyles with
  | none => dStyles
  | some s =>
    if jsTruthy s then
      match s with
      | vObj fs => importStylesGo dStyle fs fs dStyles
      | _ => dStyles
    else dStyles

/-- The merge logic of `handleConfigImport` in `App.tsx`: flat sections
are deep-merged against their defaults, the two record-list sections are
replaced only by a non-empty imported array (otherwise the current
arrays are kept), and styles are merged per category against
`DEFAULT_STYLE` on top of a copy of `DEFAULT_STYLES`.  The `DEFAULT_*`
constants live in `constants.ts`, which is not part of the sources under
study; they are passed here as parameters. -/
def handleConfigImport (dGeneral dInteraction dPageWidget dAnki : FList)
    (dStyles dStyle : FList) (curScenarios curEngines : VList)
    (newConfig : Value) : ConfigBundle :=
  let nextScenarios :=
    match impGet newConfig (str "scenarios") with
    | some (vArr (VList.cons a t)) => VList.cons a t
    | _ => curScenarios
  let nextEngines :=
    match impGet newConfig (str "engines") with
    | some (vArr (VList.cons a t)) => VList.cons a t
    | _ => curEngines
  { general := objFieldsOf
      (deepMergeConfig (vObj dGeneral) (impGet newConfig (str "general")))
  , styles := importStyles dStyles dStyle (impGet newConfig (str "styles"))
  , scenarios := nextScenarios
  , interaction := objFieldsOf
      (deepMergeConfig (vObj dInteraction) (impGet newConfig (str "interaction")))
  , pageWidget := objFieldsOf
      (deepMergeConfig (vObj dPageWidget) (impGet newConfig (str "pageWidget")))
  , engines := nextEngines
  , anki := objFieldsOf
      (deepMergeConfig (vObj dAnki) (impGet newConfig (str "anki"))) }

/-! ## The default configuration bundle -/

/-- Build a field list from an ordinary list. -/
def toFL : List (List Char × Value) → FList
  | [] => FList.nil
  | (k, v) :: rest => FList.cons k v (toFL rest)

/-- Build a value list from an ordinary list. -/
def toVL : List Value → VList
  | [] => VList.nil
  | v :: rest => VList.cons v (toVL rest)

/-- Modelled from the spec: the defaults registry (`DEFAULT_AUTO_TRANSLATE`,
`DEFAULT_STYLES`, `INITIAL_SCENARIOS`, `DEFAULT_WORD_INTERACTION`,
`DEFAULT_PAGE_WIDGET`, `INITIAL_ENGINES`, `DEFAULT_ANKI_CONFIG`) lives in
`constants.ts`, which is absent from the sources under study.  Following
the spec's data model, this bundle has the seven fixed sections, flat
maps carry exactly the fields of the per-section metadata tables, styles
is a dynamic-key map of style objects, and scenarios/engines are record
lists whose records carry an identifying `id` field. -/
def defaultStyleKnown : FList := toFL
  [ (str "color", vStr (str "#FFAA00"))
  , (str "backgroundColor", vStr (str "transparent"))
  , (str "isBold", vBool false)
  , (str "isItalic", vBool false)
  , (str "underlineStyle", vStr (str "solid"))
  , (str "underlineColor", vStr (str "#FFAA00"))
  , (str "underlineOffset", vStr (str "2px"))
  , (str "fontSize", vStr (str "1em"))
  , (str "opacity", vNum 1)
  , (str "layoutMode", vStr (str "horizontal"))
  , (str "densityMode", vStr (str "count"))
  , (str "densityValue", vNum 5) ]

/-- Modelled from the spec: a second built-in style category, so that the
styles section is a genuine multi-entry dynamic-key map. -/
def defaultStyleLearning : FList := toFL
  [ (str "color", vStr (str "#33AAFF"))
  , (str "backgroundColor", vStr (str "transparent"))
  , (str "isBold", vBool true)
  , (str "isItalic", vBool false)
  , (str "underlineStyle", vStr (str "dashed"))
  , (str "underlineColor", vStr (str "#33AAFF"))
  , (str "underlineOffset", vStr (str "2px"))
  , (str "fontSize", vStr (str "1em"))
  , (str "opacity", vNum 1)
  , (str "layoutMode", vStr (str "horizontal"))
  , (str "densityMode", vStr (str "percent"))
  , (str "densityValue", vNum 20) ]

/-- Modelled from the spec: the seven-section bundle of defaults. -/
def defaultBundle : ConfigBundle :=
  { general := toFL
      [ (str "enabled", vBool true)
      , (str "translateWholePage", vBool false)
      , (str "bilingualMode", vBool false)
      , (str "aggressiveMode", vBool false)
      , (str "matchInflections", vBool true)
      , (str "ttsSpeed", vNum 1)
      , (str "blacklist", vArr VList.nil)
      , (str "whitelist", vArr (toVL [vStr (str "example.com")])) ]
  , styles := toFL
      [ (str "known", vObj defaultStyleKnown)
      , (str "learning", vObj defaultStyleLearning) ]
  , scenarios := toVL
      [ vObj (toFL
          [ (str "id", vStr (str "daily"))
          , (str "name", vStr (str "Daily"))
          , (str "isActive", vBool true)
          , (str "isCustom", vBool false) ])
      , vObj (toFL
          [ (str "id", vStr (str "work"))
          , (str "name", vStr (str "Work"))
          , (str "isActive", vBool false)
          , (str "isCustom", vBool false) ]) ]
  , interaction := toFL
      [ (str "bubblePosition", vStr (str "top"))
      , (str "showPhonetic", vBool true)
      , (str "showOriginalText", vBool true)
      , (str "showDictExample", vBool true)
      , (str "showDictTranslation", vBool true)
      , (str "autoPronounce", vBool false)
      , (str "autoPronounceAccent", vStr (str "US"))
      , (str "autoPronounceCount", vNum 1)
      , (str "dismissDelay", vNum 2000)
      , (str "allowMultipleBubbles", vBool false)
      , (str "onlineDictUrl", vStr (str "https://dict.example.com/search?q=w")) ]
  , pageWidget := toFL
      [ (str "enabled", vBool true)
      , (str "showPhonetic", vBool true)
      , (str "showMeaning", vBool true)
      , (str "showMultiExamples", vBool false)
      , (str "showExampleTranslation", vBool true)
      , (str "showContextTranslation", vBool true)
      , (str "showPartOfSpeech", vBool false)
      , (str "showTags", vBool false)
      , (str "showImportance", vBool true)
      , (str "showCocaRank", vBool false) ]
  , engines := toVL
      [ vObj (toFL
          [ (str "id", vStr (str "google"))
          , (str "name", vStr (str "Google"))
          , (str "type", vStr (str "standard"))
          , (str "isEnabled", vBool true)
          , (str "apiKey", vStr (str ""))
          , (str "isWebSimulation", vBool false) ])
      , vObj (toFL
          [ (str "id", vStr (str "openai"))
          , (str "name", vStr (str "OpenAI"))
          , (str "type", vStr (str "ai"))
          , (str "isEnabled", vBool false)
          , (str "apiKey", vStr (str ""))
          , (str "isWebSimulation", vBool true) ]) ]
  , anki := toFL
      [ (str "enabled", vBool false)
      , (str "url", vStr (str "http://127.0.0.1:8765"))
      , (str "deckNameWant", vStr (str "ContextLingo-Want"))
      , (str "deckNameLearning", vStr (str "ContextLingo-Learning"))
      , (str "modelName", vStr (str "Basic"))
      , (str "syncInterval", vNum 30)
      , (str "autoSync", vBool false) ] }

/-- A concrete clock reading for closed round-trip statements. -/
def ts0 : List Char := str "2025/1/1 12:00:00"

/-! ## Helper lemmas about the deep merge -/

/-- The per-key computation of the `Object.keys(defaultConfig).forEach`
loop, as a named function (definitionally the `let` body inside
`mergeFields`). -/
def mergeEntry (w : Value) (k : List Char) (v : Value) : Value :=
  if isObjV v then
    match impGet w k with
    | none => v
    | some Value.vNull => v
    | some u => mergeNN v u
  else
    match impGet w k with
    | none => v
    | some u => u

theorem mergeFields_cons (k : List Char) (v : Value) (t : FList) (w : Value) :
    mergeFields (FList.cons k v t) w
      = FList.cons k (mergeEntry w k v) (mergeFields t w) := rfl

theorem merge_some_ne_null (d w : Value) (hw : w ≠ vNull) :
    deepMergeConfig d (some w) = mergeNN d w := by
  cases w <;> first | rfl | exact absurd rfl hw

theorem merge_obj (fs : FList) (w : Value) (hw : w ≠ vNull) :
    deepMergeConfig (vObj fs) (some w) = vObj (mergeFields fs w) := by
  rw [merge_some_ne_null _ _ hw]
  rfl

theorem lookupF_mergeFields (w : Value) (k : List Char) :
    ∀ (fs : FList) (v : Value), lookupF fs k = some v →
      lookupF (mergeFields fs w) k = some (mergeEntry w k v)
  | FList.nil, v, h => by simp [lookupF] at h
  | FList.cons k2 v2 t, v, h => by
    rw [mergeFields_cons]
    by_cases hk : k2 = k
    · subst hk
      have h2 : v2 = v := by simpa [lookupF] using h
      subst h2
      simp [lookupF]
    · simp only [lookupF, if_neg hk] at h ⊢
      exact lookupF_mergeFields w k t v h

theorem mergeEntry_obj (w : Value) (k : List Char) (v : Value)
    (hv : isObjV v = true) :
    mergeEntry w k v = deepMergeConfig v (impGet w k) := by
  unfold mergeEntry deepMergeConfig
  rw [if_pos hv]

theorem objPath_nonobj (v : Value) (k : List Char) (ks : List (List Char))
    (hv : isObjV v = false) : objPath v (k :: ks) = none := by
  cases v <;> first | rfl | exact absurd hv (by simp [isObjV])

theorem impGet_nonobj (w : Value) (k : List Char) (hw : isObjV w = false) :
    impGet w k = none := by
  cases w <;> first | rfl | exact absurd hw (by simp [isObjV])

theorem mergeEntry_undef (w : Value) (k : List Char) (v : Value)
    (h : impGet w k = none) : mergeEntry w k v = v := by
  unfold mergeEntry
  rw [h]
  cases hv : isObjV v <;> simp [hv]

theorem mergeFields_id (w : Value) (hw : isObjV w = false) :
    ∀ fs : FList, mergeFields fs w = fs
  | FList.nil => rfl
  | FList.cons k v t => by
    rw [mergeFields_cons, mergeEntry_undef w k v (impGet_nonobj w k hw),
      mergeFields_id w hw t]

theorem keys_mergeFields (w : Value) : ∀ fs : FList,
    FList.keys (mergeFields fs w) = FList.keys fs
  | FList.nil => rfl
  | FList.cons k v t => by
    rw [mergeFields_cons, FList.keys, FList.keys, keys_mergeFields w t]

/-- `Array.isArray(w) && w.length > 0`. -/
def isNonemptyArr : Value → Bool
  | vArr (VList.cons _ _) => true
  | _ => false

/-- Scalar test: neither an array nor an object (`null` counts as a
scalar default here, since `defaultConfig !== null` routes it to the
final branch of `deepMergeConfig`). -/
def isScalarV : Value → Bool
  | vArr _ => false
  | vObj _ => false
  | _ => true

/-! ## Claims about the deep merge -/

/-- Claim C2: for every default value, every imported value (including
`undefined`), and every path of object keys that exists in the default,
the path still exists in `deepMergeConfig default imported`: the deep
merge never drops a key of the default, at any nesting level reached
through object fields. -/
theorem claim2 (p : List (List Char)) :
    ∀ (defv : Value) (imp : Option Value),
      (objPath defv p).isSome = true →
      (objPath (deepMergeConfig defv imp) p).isSome = true := by
  induction p with
  | nil =>
    intro defv imp _
    simp [objPath]
  | cons k ks ih =>
    intro defv imp h
    cases defv with
    | vObj fs =>
      cases hl : lookupF fs k with
      | none =>
        rw [show objPath (vObj fs) (k :: ks)
            = (match lookupF fs k with
               | some v => objPath v ks
               | none => none) from rfl, hl] at h
        exact Bool.noConfusion h
      | some v =>
        have hv : (objPath v ks).isSome = true := by
          rw [show objPath (vObj fs) (k :: ks)
              = (match lookupF fs k with
                 | some v => objPath v ks
                 | none => none) from rfl, hl] at h
          exact h
        cases imp with
        | none =>
          rw [show deepMergeConfig (vObj fs) none = vObj fs from rfl,
            show objPath (vObj fs) (k :: ks)
              = (match lookupF fs k with
                 | some v => objPath v ks
                 | none => none) from rfl, hl]
          exact hv
        | some w =>
          rcases eq_or_ne w vNull with rfl | hw
          · rw [show deepMergeConfig (vObj fs) (some vNull) = vObj fs from rfl,
              show objPath (vObj fs) (k :: ks)
                = (match lookupF fs k with
                   | some v => objPath v ks
                   | none => none) from rfl, hl]
            exact hv
          · rw [merge_obj fs w hw]
            rw [show objPath (vObj (mergeFields fs w)) (k :: ks)
                = (match lookupF (mergeFields fs w) k with
                   | some v => objPath v ks
                   | none => none) from rfl,
              lookupF_mergeFields w k fs v hl]
            cases hv2 : isObjV v with
            | true =>
              rw [mergeEntry_obj w k v hv2]
              exact ih v (impGet w k) hv
            | false =>
              cases ks with
              | nil => simp [objPath]
              | cons k2 ks2 =>
                rw [objPath_nonobj v k2 ks2 hv2] at hv
                exact Bool.noConfusion hv
    | vNull => exact absurd h (by simp [objPath])
    | vBool b => exact absurd h (by simp [objPath])
    | vNum n => exact absurd h (by simp [objPath])
    | vStr s => exact absurd h (by simp [objPath])
    | vArr xs => exact absurd h (by simp [objPath])

/-- Witness for C2 at a concrete default, import and path. -/
theorem claim2_witness :
    (objPath (ConfigBundle.toValue defaultBundle)
        [str "general", str "enabled"]).isSome = true
  ∧ (objPath (deepMergeConfig (ConfigBundle.toValue defaultBundle)
        (some (vObj FList.nil)))
        [str "general", str "enabled"]).isSome = true :=
  ⟨rfl, claim2 [str "general", str "enabled"]
    (ConfigBundle.toValue defaultBundle) (some (vObj FList.nil)) rfl⟩

/-- Claim C3 (amended): when `deepMergeConfig` is called with the default
itself an array, it returns the imported value exactly when that value is
a non-empty array and the default otherwise, with no element-wise
merging; but for an array-valued key inside an object default, the
imported value replaces the default whenever it is defined, so
`reconcile({a:[1,2,3]}, {a:[]}).a` is `[]` (not `[1,2,3]`), while
`reconcile({a:[1,2,3]}, {a:[9]}).a == [9]` does hold. -/
theorem claim3 :
    (∀ (xs : VList) (w : Value),
        deepMergeConfig (vArr xs) (some w)
          = match w with
            | vArr (VList.cons a t) => vArr (VList.cons a t)
            | _ => vArr xs)
  ∧ impGet (deepMergeConfig
        (vObj (toFL [(str "a", vArr (toVL [vNum 1, vNum 2, vNum 3]))]))
        (some (vObj (toFL [(str "a", vArr VList.nil)])))) (str "a")
      = some (vArr VList.nil)
  ∧ impGet (deepMergeConfig
        (vObj (toFL [(str "a", vArr (toVL [vNum 1, vNum 2, vNum 3]))]))
        (some (vObj (toFL [(str "a", vArr (toVL [vNum 9]))])))) (str "a")
      = some (vArr (toVL [vNum 9])) := by
  refine ⟨?_, rfl, rfl⟩
  intro xs w
  cases w with
  | vArr es => cases es <;> rfl
  | vNull => rfl
  | vBool b => rfl
  | vNum n => rfl
  | vStr s => rfl
  | vObj fs => rfl

/-- Counterexample to C3 as stated: the reconciler does NOT keep the
default `[1,2,3]` when the imported object carries an empty array at the
same key; the empty array wins, because the array-atomicity branch only
guards a call whose default argument is itself an array. -/
theorem claim3_counterexample :
    impGet (deepMergeConfig
        (vObj (toFL [(str "a", vArr (toVL [vNum 1, vNum 2, vNum 3]))]))
        (some (vObj (toFL [(str "a", vArr VList.nil)])))) (str "a")
      ≠ some (vArr (toVL [vNum 1, vNum 2, vNum 3])) := by
  intro h
  have h2 : some (vArr VList.nil)
      = some (vArr (VList.cons (vNum 1)
          (VList.cons (vNum 2) (VList.cons (vNum 3) VList.nil)))) := h
  have h3 := Option.some.inj h2
  injection h3 with h4
  exact VList.noConfusion h4

/-- Claim C7 (amended): structural mismatches are healed silently with
the default kept when the default is an object (any non-object import is
treated as absent) or an array (any import other than a non-empty array
is ignored); but when the default is a scalar (or `null`), any non-null
imported value — object or array included — replaces it, so the
default's shape does not win in that direction. -/
theorem claim7 :
    (∀ (fs : FList) (w : Value), isObjV w = false →
        deepMergeConfig (vObj fs) (some w) = vObj fs)
  ∧ (∀ (xs : VList) (w : Value), isNonemptyArr w = false →
        deepMergeConfig (vArr xs) (some w) = vArr xs)
  ∧ (∀ (d w : Value), isScalarV d = true → w ≠ vNull →
        deepMergeConfig d (some w) = w) := by
  refine ⟨?_, ?_, ?_⟩
  · intro fs w hw
    rcases eq_or_ne w vNull with rfl | hw2
    · rfl
    · rw [merge_obj fs w hw2, mergeFields_id w hw fs]
  · intro xs w hw
    cases w with
    | vArr es =>
      cases es with
      | nil => rfl
      | cons a t => exact absurd hw (by simp [isNonemptyArr])
    | vNull => rfl
    | vBool b => rfl
    | vNum n => rfl
    | vStr s => rfl
    | vObj fs => rfl
  · intro d w hd hw
    cases d with
    | vArr xs => exact absurd hd (by simp [isScalarV])
    | vObj fs => exact absurd hd (by simp [isScalarV])
    | vNull => cases w <;> first | exact absurd rfl hw | rfl
    | vBool b => cases w <;> first | exact absurd rfl hw | rfl
    | vNum n => cases w <;> first | exact absurd rfl hw | rfl
    | vStr s => cases w <;> first | exact absurd rfl hw | rfl

/-- Witness for C7 at a concrete object default and string import. -/
theorem claim7_witness :
    isObjV (vStr (str "imported")) = false
  ∧ deepMergeConfig (vObj (toFL [(str "x", vNum 1)]))
      (some (vStr (str "imported")))
    = vObj (toFL [(str "x", vNum 1)]) :=
  ⟨rfl, claim7.1 (toFL [(str "x", vNum 1)]) (vStr (str "imported")) rfl⟩

/-- Counterexample to C7 as stated: an object imported where a scalar is
expected is NOT treated as absent — it replaces the scalar default. -/
theorem claim7_counterexample :
    deepMergeConfig (vNum 1) (some (vObj (toFL [(str "x", vNum 2)])))
      ≠ vNum 1 := by
  intro h
  have h2 : vObj (toFL [(str "x", vNum 2)]) = vNum 1 := h
  exact Value.noConfusion h2

/-- Claim C10: for a non-array object default and ANY import (including
`undefined` and `null`), the merge result is an object with exactly the
default's key list — keys present only in the import are dropped. -/
theorem claim10 :
    ∀ (fs : FList) (imp : Option Value), ∃ gs : FList,
      deepMergeConfig (vObj fs) imp = vObj gs
        ∧ FList.keys gs = FList.keys fs := by
  intro fs imp
  cases imp with
  | none => exact ⟨fs, rfl, rfl⟩
  | some w =>
    rcases eq_or_ne w vNull with rfl | hw
    · exact ⟨fs, rfl, rfl⟩
    · exact ⟨mergeFields fs w, merge_obj fs w hw, keys_mergeFields w fs⟩

/-! ## Claims about the scalar codec and the parser -/

theorem escQuotes_id : ∀ s : List Char, containsCh s dq = false →
    escQuotes s = s
  | [], _ => rfl
  | c :: rest, h => by
    rw [show containsCh (c :: rest) dq = ((c == dq) || containsCh rest dq)
        from rfl, Bool.or_eq_false_iff] at h
    unfold escQuotes
    rw [if_neg (by simp [← beq_iff_eq (a := c) (b := dq), h.1]),
      escQuotes_id rest h.2]

theorem endsWith_concat (l : List Char) (c : Char) :
    endsWithCh c (l ++ [c]) = true := by
  unfold endsWithCh
  rw [List.getLast?_concat]
  simp

/-- `parseValue` on a fully double-quoted token whose body has no double
quote: the outer quotes are stripped and nothing else happens. -/
theorem parseValue_quoted (fuel : Nat) (s : List Char) :
    parseValue (fuel + 1) (dq :: (s ++ [dq])) = vStr s := by
  have c1 : ((dq :: (s ++ [dq])) == str "true") = false := rfl
  have c2 : ((dq :: (s ++ [dq])) == str "false") = false := rfl
  have c3 : ((dq :: (s ++ [dq])) == str "null") = false := rfl
  have c4 : containsCh (dq :: (s ++ [dq])) dq = true := rfl
  have c5 : (startsWithCh '[' (dq :: (s ++ [dq]))
      && endsWithCh ']' (dq :: (s ++ [dq]))) = false := rfl
  have c6 : startsWithCh dq (dq :: (s ++ [dq])) = true := rfl
  have c7 : endsWithCh dq (dq :: (s ++ [dq])) = true := by
    rw [show dq :: (s ++ [dq]) = (dq :: s) ++ [dq] from rfl]
    exact endsWith_concat (dq :: s) dq
  simp only [parseValue, c1, c2, c3, c4, c5, c6, c7, Bool.not_true,
    Bool.and_false, Bool.false_and, Bool.true_and, Bool.and_true,
    Bool.false_or, Bool.true_or, Bool.or_false, Bool.false_eq_true,
    if_false, ite_false, ite_true, if_true]
  rw [show (dq :: (s ++ [dq])).drop 1 = s ++ [dq] from rfl,
    List.dropLast_concat]

/-- Claim C4 (amended): the scalar codec round-trips every string that
needs quoting (contains a newline, colon or hash) and contains no double
quote.  (The original universal claim fails: the decoder never removes
the backslash escapes the encoder inserts before double quotes.) -/
theorem claim4 (s : List Char)
    (h1 : (containsCh s '\n' || containsCh s ':' || containsCh s '#') = true)
    (h2 : containsCh s dq = false) :
    decodeScalar (encodeScalar s) = vStr s := by
  have he : encodeScalar s = dq :: (s ++ [dq]) := by
    unfold encodeScalar dumpValue
    rw [if_pos h1, escQuotes_id s h2]
    rfl
  rw [he]
  exact parseValue_quoted ((dq :: (s ++ [dq])).length) s

/-- Witness for C4 at a concrete string containing a colon. -/
theorem claim4_witness :
    (containsCh (str "a:b") '\n' || containsCh (str "a:b") ':'
        || containsCh (str "a:b") '#') = true
  ∧ containsCh (str "a:b") dq = false
  ∧ decodeScalar (encodeScalar (str "a:b")) = vStr (str "a:b") :=
  ⟨rfl, rfl, claim4 (str "a:b") rfl rfl⟩

/-- Counterexample to C4 as stated, on the spec's own example string:
the decoder leaves the backslash escapes in place, so the round trip is
NOT the identity on strings containing double quotes. -/
theorem claim4_counterexample :
    decodeScalar (encodeScalar (str "He said \"hi\" # not a comment\nline2"))
      ≠ vStr (str "He said \"hi\" # not a comment\nline2") := by
  intro h
  have h2 : str "He said \\\"hi\\\" # not a comment\nline2"
      = str "He said \"hi\" # not a comment\nline2" := Value.vStr.inj h
  exact absurd h2 (by decide)

theorem stripCommentGo_noquote (qc : Char) : ∀ (l : List Char) (prev : Option Char),
    containsCh l dq = false → containsCh l sq = false →
    stripCommentGo l false qc prev = l.takeWhile (fun c => !(c == '#'))
  | [], _, _, _ => rfl
  | c :: rest, prev, h1, h2 => by
    rw [show containsCh (c :: rest) dq = ((c == dq) || containsCh rest dq)
        from rfl, Bool.or_eq_false_iff] at h1
    rw [show containsCh (c :: rest) sq = ((c == sq) || containsCh rest sq)
        from rfl, Bool.or_eq_false_iff] at h2
    simp only [stripCommentGo, h1.1, h2.1, Bool.or_self, Bool.false_or,
      Bool.false_eq_true, if_false, ite_false, Bool.not_false, Bool.and_true]
    cases hch : c == '#' with
    | true =>
      simp only [hch, Bool.true_eq_false, if_true, ite_true, List.takeWhile,
        Bool.not_true]
    | false =>
      simp only [hch, Bool.false_eq_true, if_false, ite_false, List.takeWhile,
        Bool.not_false]
      exact congrArg (c :: ·)
        (stripCommentGo_noquote qc rest (some c) h1.2 h2.2)

/-- Claim C5: a `#` inside a quoted string value is not a comment
marker (`color: "#FFAA00"` parses to the full string); a `#` outside
quotes truncates the line; and on any line without quote characters the
stripper keeps exactly the prefix before the first `#`. -/
theorem claim5 :
    parseConfigYaml (str "color: \"#FFAA00\"")
      = vObj (toFL [(str "color", vStr (str "#FFAA00"))])
  ∧ parseConfigYaml (str "x: 1 # trailing comment")
      = vObj (toFL [(str "x", vNum 1)])
  ∧ ∀ l : List Char, containsCh l dq = false → containsCh l sq = false →
      stripComment l = l.takeWhile (fun c => !(c == '#')) :=
  ⟨rfl, rfl, fun l ha hb => stripCommentGo_noquote dq l none ha hb⟩

/-- Witness for C5's universal part at a concrete quote-free line. -/
theorem claim5_witness :
    containsCh (str "ab#c") dq = false
  ∧ containsCh (str "ab#c") sq = false
  ∧ stripComment (str "ab#c")
      = (str "ab#c").takeWhile (fun c => !(c == '#')) :=
  ⟨rfl, rfl, claim5.2.2 (str "ab#c") rfl rfl⟩

/-- Claim C6, actual behaviour of the code at the spec's example: the
parser re-indents only the inline `id` pair to the dash's column and
then SKIPS the deeper-indented sibling line (`name`), producing a single
record that has lost the `name` field — not the merged two-field record
the spec requires, and not two separate elements either. -/
theorem claim6_behavior :
    parseConfigYaml (str "items:\n  - id: \"a1\"\n    name: \"Alpha\"")
      = vObj (toFL [(str "items",
          vArr (toVL [vObj (toFL [(str "id", vStr (str "a1"))])]))]) := rfl

/-- Claim C8: a key with no inline value and no deeper-indented
followers parses to an empty object, not `null` — both at the end of a
document and in the middle of one. -/
theorem claim8 :
    parseConfigYaml (str "foo:\n") = vObj (toFL [(str "foo", vObj FList.nil)])
  ∧ parseConfigYaml (str "foo:\nbar: 1")
      = vObj (toFL [(str "foo", vObj FList.nil), (str "bar", vNum 1)]) :=
  ⟨rfl, rfl⟩

/-! ## Claims about the dumper's determinism and the round trip -/

set_option maxRecDepth 4000

set_option maxHeartbeats 4000000

theorem containsCh_append (a b : List Char) (c : Char) :
    containsCh (a ++ b) c = (containsCh a c || containsCh b c) := by
  simp [containsCh, List.any_append]

theorem splitChAux_no_nl : ∀ (a b acc : List Char), containsCh a '\n' = false →
    splitChAux '\n' (a ++ b) acc = splitChAux '\n' b (a.reverse ++ acc)
  | [], b, acc, _ => rfl
  | c :: a2, b, acc, h => by
    rw [show containsCh (c :: a2) '\n' = ((c == '\n') || containsCh a2 '\n')
        from rfl, Bool.or_eq_false_iff] at h
    show splitChAux '\n' (c :: (a2 ++ b)) acc = _
    simp only [splitChAux, h.1, Bool.false_eq_true, if_false, ite_false]
    rw [splitChAux_no_nl a2 b (c :: acc) h.2]
    congr 1
    simp [List.append_assoc]

theorem splitChAux_nl (rest acc : List Char) :
    splitChAux '\n' ('\n' :: rest) acc
      = acc.reverse :: splitChAux '\n' rest [] := by
  simp [splitChAux]

/-- Splitting the dump into lines: the first two lines are the title
comment and the export-time comment (the latter carrying the clock
text), and everything after them depends only on the bundle. -/
theorem splitCh_gen (cfg : ConfigBundle) (t : List Char)
    (h : containsCh t '\n' = false) :
    splitCh '\n' (generateConfigYaml cfg t)
      = str "# ContextLingo 配置文件"
        :: (str "# 导出时间: " ++ t)
        :: splitCh '\n' (generateConfigYamlBody cfg) := by
  calc splitCh '\n' (generateConfigYaml cfg t)
      = str "# ContextLingo 配置文件"
        :: splitChAux '\n' (t ++ '\n' :: generateConfigYamlBody cfg)
            ((str "# 导出时间: ").reverse) := rfl
    _ = str "# ContextLingo 配置文件"
        :: splitChAux '\n' ('\n' :: generateConfigYamlBody cfg)
            (t.reverse ++ (str "# 导出时间: ").reverse) := by
        rw [splitChAux_no_nl t _ _ h]
    _ = str "# ContextLingo 配置文件"
        :: (t.reverse ++ (str "# 导出时间: ").reverse).reverse
        :: splitChAux '\n' (generateConfigYamlBody cfg) [] := by
        rw [splitChAux_nl]
    _ = str "# ContextLingo 配置文件"
        :: (str "# 导出时间: " ++ t)
        :: splitCh '\n' (generateConfigYamlBody cfg) := by
        rw [← List.reverse_append, List.reverse_reverse]
        rfl

/-- The parse of a dump does not see the two header comment lines: both
are stripped to nothing, so the parse depends only on the body. -/
theorem parse_gen_aux (cfg : ConfigBundle) (t : List Char)
    (h : containsCh t '\n' = false) :
    parseConfigYaml (generateConfigYaml cfg t)
      = parseLinesF 1000000
          (((splitCh '\n' (generateConfigYamlBody cfg)).map stripComment).filter
            (fun l => !(trimJS l).isEmpty)) 0 false VList.nil FList.nil := by
  show parseLinesF 1000000
      (((splitCh '\n' (generateConfigYaml cfg t)).map stripComment).filter
        (fun l => !(trimJS l).isEmpty)) 0 false VList.nil FList.nil = _
  rw [splitCh_gen cfg t h]
  simp only [List.map_cons]
  rw [show stripComment (str "# ContextLingo 配置文件") = [] from rfl]
  rw [show stripComment (str "# 导出时间: " ++ t) = [] from rfl]
  simp only [List.filter_cons]
  simp only [show (!(trimJS ([] : List Char)).isEmpty) = false from rfl,
    Bool.false_eq_true, if_false, ite_false]

/-- Claim C9 (amended): `generateConfigYaml` is a function of the bundle
and the clock reading, and the clock reading appears only in the second
header comment line: the output factors as a fixed prefix, the clock
text, and a body depending only on the bundle; the line list after the
two header lines is independent of the clock; and the parse of the dump
does not depend on the clock at all.  (The original claim — two calls
produce identical text — fails because of the export-time line.) -/
theorem claim9 :
    (∀ (cfg : ConfigBundle) (t : List Char),
        generateConfigYaml cfg t
          = str "# ContextLingo 配置文件\n# 导出时间: "
              ++ (t ++ '\n' :: generateConfigYamlBody cfg))
  ∧ (∀ (cfg : ConfigBundle) (t1 t2 : List Char),
        containsCh t1 '\n' = false → containsCh t2 '\n' = false →
        (splitCh '\n' (generateConfigYaml cfg t1)).drop 2
          = (splitCh '\n' (generateConfigYaml cfg t2)).drop 2)
  ∧ (∀ (cfg : ConfigBundle) (t1 t2 : List Char),
        containsCh t1 '\n' = false → containsCh t2 '\n' = false →
        parseConfigYaml (generateConfigYaml cfg t1)
          = parseConfigYaml (generateConfigYaml cfg t2)) := by
  refine ⟨fun _ _ => rfl, ?_, ?_⟩
  · intro cfg t1 t2 h1 h2
    rw [splitCh_gen cfg t1 h1, splitCh_gen cfg t2 h2]
    rfl
  · intro cfg t1 t2 h1 h2
    rw [parse_gen_aux cfg t1 h1, parse_gen_aux cfg t2 h2]

/-- Witness for C9 at two concrete clock readings. -/
theorem claim9_witness :
    containsCh ts0 '\n' = false
  ∧ containsCh (str "2026/2/2 08:30:00") '\n' = false
  ∧ parseConfigYaml (generateConfigYaml defaultBundle ts0)
      = parseConfigYaml (generateConfigYaml defaultBundle
          (str "2026/2/2 08:30:00")) :=
  ⟨rfl, rfl, claim9.2.2 defaultBundle ts0 (str "2026/2/2 08:30:00") rfl rfl⟩

/-- Counterexample to C9 as stated: two dumps of the same bundle at
different clock readings are NOT identical texts — they differ at the
first character after the export-time label. -/
theorem claim9_counterexample :
    generateConfigYaml defaultBundle (str "a")
      ≠ generateConfigYaml defaultBundle (str "b") := by
  intro h
  have h2 := congrArg (fun l : List Char => (l.drop 28).head?) h
  exact absurd h2 (by decide)

/-- The document-level deep merge of the defaults against the parse of
their own dump restores every section except the two record lists, which
come back empty: the dumper's comment placement breaks the dashed items
(the first field lands at column 0), the parser therefore yields empty
arrays for `scenarios` and `engines`, and the object branch of the merge
takes a present imported array even when it is empty. -/
theorem merged_eq_emptied :
    deepMergeConfig (ConfigBundle.toValue defaultBundle)
        (some (parseConfigYaml (generateConfigYaml defaultBundle ts0)))
      = ConfigBundle.toValue
          { defaultBundle with scenarios := VList.nil, engines := VList.nil } :=
  rfl

/-- The application's own import path, which falls back to the current
arrays when the imported ones are empty, restores the full bundle. -/
theorem import_restores :
    ConfigBundle.toValue
        (handleConfigImport defaultBundle.general defaultBundle.interaction
          defaultBundle.pageWidget defaultBundle.anki defaultBundle.styles
          defaultStyleKnown defaultBundle.scenarios defaultBundle.engines
          (parseConfigYaml (generateConfigYaml defaultBundle ts0)))
      = ConfigBundle.toValue defaultBundle :=
  rfl

/-- Claim C1 (amended): reconciling the default bundle against the parse
of its own dump with `deepMergeConfig` yields the bundle with its two
record-list sections emptied (everything else round-trips); the
section-wise reconciliation of `handleConfigImport`, whose non-empty
guard heals exactly this loss, restores the bundle in full. -/
theorem claim1 :
    deepMergeConfig (ConfigBundle.toValue defaultBundle)
        (some (parseConfigYaml (generateConfigYaml defaultBundle ts0)))
      = ConfigBundle.toValue
          { defaultBundle with scenarios := VList.nil, engines := VList.nil }
  ∧ ConfigBundle.toValue
        (handleConfigImport defaultBundle.general defaultBundle.interaction
          defaultBundle.pageWidget defaultBundle.anki defaultBundle.styles
          defaultStyleKnown defaultBundle.scenarios defaultBundle.engines
          (parseConfigYaml (generateConfigYaml defaultBundle ts0)))
      = ConfigBundle.toValue defaultBundle :=
  ⟨merged_eq_emptied, import_restores⟩

/-- Does the value carry a non-empty `scenarios` array? -/
def scenariosNonempty (v : Value) : Bool :=
  match impGet v (str "scenarios") with
  | some (vArr (VList.cons _ _)) => true
  | _ => false

/-- Counterexample to C1 as stated: the document-level
`reconcile(D, parse(dump(D)))` is NOT deep-equal to `D` — the scenarios
section has been emptied. -/
theorem claim1_counterexample :
    deepMergeConfig (ConfigBundle.toValue defaultBundle)
        (some (parseConfigYaml (generateConfigYaml defaultBundle ts0)))
      ≠ ConfigBundle.toValue defaultBundle := by
  intro h
  have h2 := merged_eq_emptied.symm.trans h
  have h3 := congrArg scenariosNonempty h2
  exact Bool.noConfusion h3

end Lingoc
